import Mathlib

/-!
Verification development for the immich-discord-selfbot repository.

Shallow embedding of the pure logic of the source files:
  src/utils/formatting.py      (parse_size_string, format_file_size)
  src/utils/config.py          (DISCORD_UPLOAD_LIMITS, get_file_size_limit)
  src/utils/state_utils.py     (StateManager)
  src/cogs/preference_commands.py (prefs set min_size branch)
  src/cogs/random_commands.py  (get_asset_info cache, format_error_message,
                                fetch_assets_batch, process_random_assets)
  src/cogs/asset_commands.py   (fetch_and_send_asset, last_fetched_asset map)
  src/cogs/favorite_commands.py (favorite last resolution)

Numbers are modelled with Nat/Int/Rat.  The source computes sizes with
Python floats in two places (parse_size_string and format_file_size); the
embedding uses exact rational arithmetic, which agrees with the float
computation on every value evaluated in the theorems below (all are exactly
representable or far from a rounding tie; see the doc comments there).
Network and Discord I/O are modelled as oracles supplied by a world record;
a raised exception is modelled as an error value that propagates exactly
along the source's try/except/finally structure.
-/

/-! ## src/utils/formatting.py -/

/-- ASCII lower-casing, character by character — the only case Python's
`.lower()` meets on this repository's inputs. -/
def strLower (s : String) : String :=
  ⟨s.data.map Char.toLower⟩

/-- Python's `s[:-n]` slice: all but the last `n` characters. -/
def strDropRight (s : String) (n : ℕ) : String :=
  ⟨s.data.take (s.data.length - n)⟩

/-- Python's `s[-n:]` slice: the last `n` characters (the whole string
when it is shorter than `n`). -/
def strTakeRight (s : String) (n : ℕ) : String :=
  ⟨s.data.drop (s.data.length - n)⟩

/-- Python falsiness of a string. -/
def strIsEmpty (s : String) : Bool :=
  s.data.isEmpty

/-- Numeric value of a list of decimal digit characters, most significant
first, as in Python float parsing of the integer or fraction part. -/
def natOfDigits (l : List Char) : ℕ :=
  l.foldl (fun a c => 10 * a + (c.toNat - '0'.toNat)) 0

/-- The exact value of a parsed decimal literal
`±(intPart + fracPart / 10 ^ fracLen)`, the result of the model of
Python `float(text)`. -/
structure PyDecimal where
  neg : Bool
  intPart : ℕ
  fracPart : ℕ
  fracLen : ℕ
deriving DecidableEq, Repr

/-- Model of Python `float(text)` restricted to the grammar
`[spaces][sign]digits[.digits][spaces]` (no exponent, infinity or nan:
none of those forms occurs in the strings this repository parses).
Returns the exact decimal components; Python would round the value to the
nearest binary double, which is immaterial for every value the theorems
below evaluate (each is exactly representable or the deviation is
absorbed by the later integer truncation — see `decTimesTrunc`). -/
def parsePyFloat (s : String) : Option PyDecimal :=
  let l := s.data
  let l := l.dropWhile (· = ' ')
  let l := (l.reverse.dropWhile (· = ' ')).reverse
  let neg : Bool := match l with
    | '-' :: _ => true
    | _ => false
  let l := match l with
    | '-' :: rest => rest
    | '+' :: rest => rest
    | _ => l
  let ds := l.takeWhile Char.isDigit
  let rest := l.drop ds.length
  match rest with
  | [] =>
    if ds.isEmpty then none else some ⟨neg, natOfDigits ds, 0, 0⟩
  | '.' :: rest2 =>
    let fs := rest2.takeWhile Char.isDigit
    let rest3 := rest2.drop fs.length
    if rest3.isEmpty ∧ (¬ ds.isEmpty ∨ ¬ fs.isEmpty) then
      some ⟨neg, natOfDigits ds, natOfDigits fs, fs.length⟩
    else none
  | _ => none

/-- Model of Python `int(value * mult)` for a parsed decimal `value`:
the product is `±(intPart * mult + fracPart * mult / 10 ^ fracLen)` as an
exact rational, and `int()` truncates toward zero, which on the exact
value is the floor of the magnitude carrying the sign. -/
def decTimesTrunc (d : PyDecimal) (mult : ℕ) : Int :=
  let mag : ℕ := d.intPart * mult + d.fracPart * mult / 10 ^ d.fracLen
  if d.neg then -(mag : Int) else (mag : Int)

/-- Embedding of `parse_size_string` (src/utils/formatting.py lines 16-36):
lower-case the text, split off the last two characters as the unit,
parse the rest as a float, multiply by 1,000,000 for `mb` or 1,000 for
`kb`, truncate to an integer; `none` models the Python `None` returned for
empty input, parse failure or an unrecognized unit. -/
def parse_size_string (s : String) : Option Int :=
  if strIsEmpty s then none
  else
    let t := strLower s
    let valueStr := strDropRight t 2
    let unit := strTakeRight t 2
    match parsePyFloat valueStr with
    | none => none
    | some v =>
      if unit = "mb" then some (decTimesTrunc v 1000000)
      else if unit = "kb" then some (decTimesTrunc v 1000)
      else none

/-- Two-digit zero-padded rendering of a number below 100. -/
def pad2 (n : ℕ) : String :=
  if n < 10 then "0" ++ toString n else toString n

/-- Rendering of `num/den` with two decimals, modelling the Python format
`f"{num/den:.2f}"` for nonnegative `num`.  The source rounds the nearest
binary double of `num/den` half-to-even; the embedding rounds the exact
rational half-up.  The two agree on every value that is not within one
double-ulp of a `.xx5` tie, in particular on every value evaluated in the
theorems below. -/
def two_decimal (num den : ℕ) : String :=
  let centi := (200 * num + den) / (2 * den)
  toString (centi / 100) ++ "." ++ pad2 (centi % 100)

/-- Signed two-decimal rendering of `n/den`, as Python renders a negative
float with a leading minus sign. -/
def fmtSigned (n : Int) (den : ℕ) : String :=
  if n < 0 then "-" ++ two_decimal n.natAbs den else two_decimal n.toNat den

/-- Embedding of `format_file_size` (src/utils/formatting.py lines 4-9):
at least 1,000,000 bytes renders as `X.XX MB`, anything else as `X.XX KB`,
with decimal (not binary) divisors. -/
def format_file_size (n : Int) : String :=
  if n ≥ 1000000 then fmtSigned n 1000000 ++ " MB"
  else fmtSigned n 1000 ++ " KB"

/-! ## src/utils/config.py -/

/-- Embedding of the `DISCORD_UPLOAD_LIMITS` table (src/utils/config.py
lines 14-18); `none` models the `KeyError` an unknown tier would raise. -/
def DISCORD_UPLOAD_LIMITS (tier : String) : Option Int :=
  if tier = "basic" then some 25000000
  else if tier = "nitro_basic" then some 50000000
  else if tier = "nitro" then some 500000000
  else none

/-! ## src/utils/state_utils.py -/

/-- Embedding of the `AssetState` dataclass. -/
structure AssetState where
  asset_id : String
  message_id : Option ℕ
deriving DecidableEq, Repr

/-- Embedding of the `JobState` dataclass. -/
structure JobState where
  should_cancel : Bool
  message : Option ℕ
deriving DecidableEq, Repr

/-- Embedding of the `StateManager` class state: the per-user last-fetched
asset map and the per-user active-job map, both keyed by user id.
Python's `defaultdict(lambda: None)` and `.get` lookups both read as
`none` on an absent key, so each map is modelled as a total function into
`Option`. -/
structure StateManager where
  last_fetched : ℕ → Option AssetState
  active_jobs : ℕ → Option JobState

/-- Embedding of `StateManager.set_last_asset`: unconditional overwrite. -/
def StateManager.set_last_asset (sm : StateManager) (user : ℕ) (aid : String)
    (mid : Option ℕ) : StateManager :=
  { sm with last_fetched := fun v => if v = user then some ⟨aid, mid⟩ else sm.last_fetched v }

/-- Embedding of `StateManager.get_last_asset`. -/
def StateManager.get_last_asset (sm : StateManager) (user : ℕ) : Option AssetState :=
  sm.last_fetched user

/-- Embedding of `StateManager.clear_last_asset`: removal, idempotent. -/
def StateManager.clear_last_asset (sm : StateManager) (user : ℕ) : StateManager :=
  { sm with last_fetched := fun v => if v = user then none else sm.last_fetched v }

/-- Embedding of `StateManager.start_job`: registers a fresh `JobState`
with `should_cancel = False`, unconditionally replacing any prior entry. -/
def StateManager.start_job (sm : StateManager) (user : ℕ) (mid : ℕ) : StateManager :=
  { sm with active_jobs := fun v => if v = user then some ⟨false, some mid⟩ else sm.active_jobs v }

/-- Embedding of `StateManager.cancel_job`: sets the flag if a job exists
and reports whether one existed. -/
def StateManager.cancel_job (sm : StateManager) (user : ℕ) : Bool × StateManager :=
  match sm.active_jobs user with
  | some j =>
    (true, { sm with active_jobs := fun v => if v = user then some { j with should_cancel := true } else sm.active_jobs v })
  | none => (false, sm)

/-- Embedding of `StateManager.should_cancel`: reads the flag, `false`
when no job is registered. -/
def StateManager.should_cancel (sm : StateManager) (user : ℕ) : Bool :=
  match sm.active_jobs user with
  | some j => j.should_cancel
  | none => false

/-- Embedding of `StateManager.get_search_message`. -/
def StateManager.get_search_message (sm : StateManager) (user : ℕ) : Option ℕ :=
  match sm.active_jobs user with
  | some j => j.message
  | none => none

/-- Embedding of `StateManager.end_job`: removes the entry; deleting an
absent key is a no-op, so the unconditional overwrite to `none` is
observationally identical to the source's guarded `del`. -/
def StateManager.end_job (sm : StateManager) (user : ℕ) : StateManager :=
  { sm with active_jobs := fun v => if v = user then none else sm.active_jobs v }

/-- A `StateManager` with no recorded assets and no active jobs, the state
the module-level singleton starts in. -/
def emptySM : StateManager :=
  { last_fetched := fun _ => none, active_jobs := fun _ => none }

/-! ## src/cogs/preference_commands.py, `prefs set min_size` branch -/

/-- Result of the `min_size` branch of `prefs_set`
(src/cogs/preference_commands.py lines 114-132). -/
inductive PrefsSetResult where
  | invalidFormat
  | exceedsLimit
  | stored (v : Int)
deriving DecidableEq, Repr

/-- Embedding of the `min_size` branch of `prefs_set`: parse the size
string (error message on `None`), reject if the parsed value exceeds the
account's maximum file size limit, otherwise store it.  No other range
check is performed. -/
def prefs_set_min_size (value : String) (accountLimit : Int) : PrefsSetResult :=
  match parse_size_string value with
  | none => .invalidFormat
  | some b => if b > accountLimit then .exceedsLimit else .stored b

/-! ## src/cogs/random_commands.py -/

/-- Asset metadata as consumed by the discovery loop: `type` and
`exifInfo.fileSizeInByte` are the only fields the loop's control flow
reads (the remaining fields feed message formatting only). -/
structure AssetInfo where
  typ : String
  fileSize : Int
deriving DecidableEq, Repr

/-- Embedding of `RandomCommands.get_asset_info` (lines 86-103): a lookup
in the cog-level `asset_cache` keyed by `"asset_info_" ++ id`; on a hit
the cached snapshot is returned without consulting the gateway, on a miss
the gateway result is returned and, when truthy, stored in the cache.
The TTL cleanup task (`_cleanup_cache`, 300 seconds) runs outside this
call and is not modelled; within the TTL the cache entry persists across
invocations of the discovery pass. -/
def get_asset_info (fetch : String → Option AssetInfo)
    (cache : String → Option AssetInfo) (aid : String) :
    Option AssetInfo × (String → Option AssetInfo) :=
  let key := "asset_info_" ++ aid
  match cache key with
  | some v => (some v, cache)
  | none =>
    match fetch aid with
    | some info => (some info, fun k => if k = key then some info else cache k)
    | none => (none, cache)

/-- Boolean substring test, modelling Python's `needle in hay`. -/
def strContains (hay needle : String) : Bool :=
  decide (needle.toList <:+: hay.toList)

/-- The category hint `format_error_message` appends, chosen by substring
tests on the lower-cased error text (the `elif` chain of lines 160-169). -/
def error_hint (el : String) : String :=
  if strContains el "rate limit" then
    "🕒 You\x27re making too many requests. Please wait a moment and try again."
  else if strContains el "not found" then
    "🔍 The requested asset could not be found. It may have been deleted."
  else if strContains el "permission" then
    "🔒 You don\x27t have permission to access this asset."
  else if strContains el "size" then
    "📏 The file size exceeds Discord\x27s upload limit. Try using size filters."
  else
    "⚠️ An unexpected error occurred. Please try again or contact support."

/-- Embedding of `RandomCommands.format_error_message` (lines 156-172):
the user-visible text starts with `❌ Error: ` followed by the raw error
string, then the category hint, then the command string. -/
def format_error_message (error commandStr : String) : String :=
  "❌ Error: " ++ error ++ "\n\n" ++ error_hint (strLower error)
    ++ "\n\nCommand used: `" ++ commandStr ++ "`"

/-- Python truthiness of an optional integer: `None` and `0` are falsy. -/
def optIntTruthy : Option Int → Bool
  | none => false
  | some v => v ≠ 0

/-- Python truthiness of an optional string: `None` and `""` are falsy. -/
def optStrTruthy : Option String → Bool
  | none => false
  | some s => !(strIsEmpty s)

/-- The synchronous validation check at the top of `process_random_assets`
(lines 230-239): a truthy `min_size` larger than the account's file size
limit rejects the request before any job is registered. -/
def min_size_rejected (minS : Option Int) (limit : Int) : Bool :=
  optIntTruthy minS && decide (minS.getD 0 > limit)

/-- The oracles a discovery run interacts with.  `randomCall k b` is the
result of the k-th call to `asset_utils.fetch_random_assets` with batch
size `b` (`(data, error)` with Python falsiness of `data` modelled by
`none`/`[]`).  `infoOf` abstracts `get_asset_info` (metadata fetch,
`none` covering both a `None` result and a gathered exception), `dataOf`
whether `fetch_asset_data` returns truthy bytes.  `cancelAt k` injects a
concurrent `cancel_job` from the cancel command just before the k-th
loop-top cancellation check — the only points at which a concurrently set
flag is read.  `shouldUpd t` is the t-th evaluation of the wall-clock
test `current_time - last_update_time >= 5`.  `opFail n` makes the n-th
Discord call (message edit, delete or send) fail, with the given
exception text. -/
structure DiscoveryWorld where
  maxAttempts : ℕ
  accountType : String
  randomCall : ℕ → ℕ → Option (List String) × Option String
  infoOf : String → Option AssetInfo
  dataOf : String → Bool
  cancelAt : ℕ → Bool
  shouldUpd : ℕ → Bool
  opFail : ℕ → Option String

/-- The account file-size limit a run resolves at INIT
(`config.get_file_size_limit`); the theorems only use registered tiers,
for which the table lookup succeeds. -/
def account_limit (w : DiscoveryWorld) : Int :=
  (DISCORD_UPLOAD_LIMITS w.accountType).getD 0

/-- Mutable state of one discovery run: collected asset ids, the attempts
counter, the gateway call counter, the loop iteration counter, the
wall-clock test counter, the Discord operation counter and the shared
`StateManager`. -/
structure LoopSt where
  valid : List String
  attempts : ℕ
  callIdx : ℕ
  iter : ℕ
  tq : ℕ
  ops : ℕ
  sm : StateManager

/-- Performs one Discord call: consumes one operation index and reports
the failure text, if any. -/
def doOpSt (w : DiscoveryWorld) (st : LoopSt) : Option String × LoopSt :=
  (w.opFail st.ops, { st with ops := st.ops + 1 })

/-- Embedding of the accumulation loop inside `fetch_assets_batch`
(lines 105-120): repeatedly call `fetch_random_assets`, stop on an error
(returned alongside the partial list) or an empty batch, else extend;
finally truncate to `cnt`.  Each continuing call adds at least one asset,
so `cnt + 1` units of fuel are never exhausted before the guard closes,
and the fuel-exhausted fallback returns the same value the closed guard
would. -/
def fetch_batch_go (fr : ℕ → ℕ → Option (List String) × Option String)
    (cnt batchSize : ℕ) : ℕ → ℕ → List String → (List String × Option String) × ℕ
  | 0, ci, acc => ((acc.take cnt, none), ci)
  | fuel + 1, ci, acc =>
    if acc.length < cnt then
      match fr ci batchSize with
      | (_, some e) => ((acc.take cnt, some e), ci + 1)
      | (none, none) => ((acc.take cnt, none), ci + 1)
      | (some [], none) => ((acc.take cnt, none), ci + 1)
      | (some b, none) => fetch_batch_go fr cnt batchSize fuel (ci + 1) (acc ++ b)
    else ((acc.take cnt, none), ci)

/-- Embedding of `fetch_assets_batch` (lines 105-120): batch size
`min(10, count)`, then the accumulation loop.  Also returns the advanced
gateway call counter. -/
def fetch_assets_batch (fr : ℕ → ℕ → Option (List String) × Option String)
    (cnt : ℕ) (callIdx : ℕ) : (List String × Option String) × ℕ :=
  fetch_batch_go fr cnt (min 10 cnt) (cnt + 1) callIdx []

/-- Result of one pass of the per-candidate `for` body: a Discord call
raised, the `for` loop broke out (attempt budget hit or target count
collected), or control moves to the next candidate. -/
inductive StepOut where
  | raised (e : String) (st : LoopSt)
  | brk (st : LoopSt)
  | next (st : LoopSt)

/-- Embedding of one pass of the per-candidate `for` body of
`process_random_assets` (lines 282-341): charge one attempt; maybe emit
a progress edit (wall-clock gated); break out of the batch once
`attempts` exceeds `max_attempts`; skip the candidate on missing
metadata, a media-type mismatch, a truthy `min_size`/`max_size`
violation, an over-the-account-limit size (`check_file_size`) or a
failed data fetch; otherwise append it, emit the found-asset edit, and
break early once `count` assets are collected. -/
def candidate_step (w : DiscoveryWorld) (count maxAtt : ℕ)
    (minS maxS : Option Int) (mediaT : Option String) (limit : Int)
    (aid : String) (info : Option AssetInfo) (st : LoopSt) : StepOut :=
  let st := { st with attempts := st.attempts + 1 }
  let upd := w.shouldUpd st.tq
  let st := { st with tq := st.tq + 1 }
  let r := if upd then doOpSt w st else (none, st)
  match r.1, r.2 with
  | some e, st => .raised e st
  | none, st =>
    if maxAtt < st.attempts then .brk st
    else
      match info with
      | none => .next st
      | some i =>
        let fs := i.fileSize
        let ty := strLower i.typ
        if optStrTruthy mediaT ∧ ty ≠ mediaT.getD "" then .next st
        else if optIntTruthy minS ∧ fs < minS.getD 0 then .next st
        else if optIntTruthy maxS ∧ fs > maxS.getD 0 then .next st
        else if fs > limit then .next st
        else if ¬ w.dataOf aid then .next st
        else
          let st := { st with valid := st.valid ++ [aid] }
          let r2 := doOpSt w st
          match r2.1, r2.2 with
          | some e, st => .raised e st
          | none, st =>
            if count ≤ st.valid.length then .brk st
            else .next st

/-- Result of processing the candidates of one batch: either control
returns to the loop head, or a Discord call raised. -/
inductive InnerOut where
  | cont (st : LoopSt)
  | raised (e : String) (st : LoopSt)

/-- Embedding of the per-candidate `for` loop of `process_random_assets`
(lines 282-341), applied to the batch zipped with its gathered metadata:
`candidate_step` on each element in order, a break returning control to
the `while` head. -/
def process_candidates (w : DiscoveryWorld) (count maxAtt : ℕ)
    (minS maxS : Option Int) (mediaT : Option String) (limit : Int) :
    List (String × Option AssetInfo) → LoopSt → InnerOut
  | [], st => .cont st
  | (aid, info) :: rest, st =>
    match candidate_step w count maxAtt minS maxS mediaT limit aid info st with
    | .raised e st => .raised e st
    | .brk st => .cont st
    | .next st => process_candidates w count maxAtt minS maxS mediaT limit rest st

/-- Result of one iteration of the `while` loop of
`process_random_assets`: control returns to the loop head, the
cancellation branch returned, or a Discord call raised. -/
inductive IterOut where
  | next (st : LoopSt)
  | cancelled (st : LoopSt)
  | raised (e : String) (st : LoopSt)

/-- The tail of one `while` iteration, after the cancellation check and
the batch fetch (lines 267-341): on an error or empty batch charge
`max 1 (length assets)` attempts (with a progress edit when the
wall-clock test had fired) and return to the loop head; otherwise run
the per-candidate loop over the batch zipped with its gathered
metadata. -/
def iter_after_fetch (w : DiscoveryWorld) (count maxAtt : ℕ)
    (minS maxS : Option Int) (mediaT : Option String) (limit : Int)
    (assets : List String) (error : Option String) (upd : Bool)
    (st : LoopSt) : IterOut :=
  if error.isSome ∨ assets.isEmpty then
    let st := { st with attempts := st.attempts + max 1 assets.length }
    if upd then
      let r := doOpSt w st
      match r.1, r.2 with
      | some e, st => .raised e st
      | none, st => .next st
    else .next st
  else
    match process_candidates w count maxAtt minS maxS mediaT limit
        (assets.map (fun a => (a, w.infoOf a))) st with
    | .cont st => .next st
    | .raised e st => .raised e st

/-- Embedding of one iteration of the `while` loop of
`process_random_assets` (lines 257-341).  A concurrently running cancel
command is injected by `cancelAt` just before the cancellation check, the
only point where the flag is read.  Then: on a cancel, emit the
cancellation edit and return; otherwise evaluate the wall-clock test,
fetch a batch of `min(5, count - collected)` candidates, and hand over to
`iter_after_fetch`. -/
def loopIter (w : DiscoveryWorld) (user count maxAtt : ℕ)
    (minS maxS : Option Int) (mediaT : Option String) (limit : Int)
    (st : LoopSt) : IterOut :=
  let st := { st with
    sm := if w.cancelAt st.iter then (st.sm.cancel_job user).2 else st.sm,
    iter := st.iter + 1 }
  if st.sm.should_cancel user then
    let r := doOpSt w st
    match r.1, r.2 with
    | some e, st => .raised e st
    | none, st => .cancelled st
  else
    let upd := w.shouldUpd st.tq
    let st := { st with tq := st.tq + 1 }
    let fb := fetch_assets_batch w.randomCall (min 5 (count - st.valid.length)) st.callIdx
    iter_after_fetch w count maxAtt minS maxS mediaT limit fb.1.1 fb.1.2 upd
      { st with callIdx := fb.2 }

/-- Result of the whole `while` loop: the guard closed, the cancellation
branch returned, a Discord call raised, or the fuel ran out (shown
unreachable for the fuel `process_random_assets` supplies). -/
inductive LoopRes where
  | finished (st : LoopSt)
  | cancelled (st : LoopSt)
  | raised (e : String) (st : LoopSt)
  | fuelOut (st : LoopSt)

/-- Embedding of the `while attempts < max_attempts and len(valid_assets)
< count` loop, driven by `loopIter`; the fuel only bounds the structural
recursion and is never exhausted for the fuel `process_random_assets`
supplies, because every iteration increases `attempts`. -/
def searchLoop (w : DiscoveryWorld) (user count maxAtt : ℕ)
    (minS maxS : Option Int) (mediaT : Option String) (limit : Int) :
    ℕ → LoopSt → LoopRes
  | 0, st =>
    if st.attempts < maxAtt ∧ st.valid.length < count then .fuelOut st
    else .finished st
  | fuel + 1, st =>
    if st.attempts < maxAtt ∧ st.valid.length < count then
      match loopIter w user count maxAtt minS maxS mediaT limit st with
      | .next st' => searchLoop w user count maxAtt minS maxS mediaT limit fuel st'
      | .cancelled st' => .cancelled st'
      | .raised e st' => .raised e st'
    else .finished st

/-- Embedding of the delivery loop (lines 353-356): for each collected
asset call `send_asset` (one Discord send; `send_asset` catches its own
exceptions and returns `None`, modelled by `opFail`), and after each
successful send record the asset in the `StateManager` with the sent
message's id (modelled by the operation index).  Returns the advanced
operation counter, the updated `StateManager` and the successfully sent
asset ids in order. -/
def deliver_assets (w : DiscoveryWorld) (user : ℕ) :
    List String → ℕ → StateManager → List String → ℕ × StateManager × List String
  | [], ops, sm, sent => (ops, sm, sent)
  | aid :: rest, ops, sm, sent =>
    match w.opFail ops with
    | some _ => deliver_assets w user rest (ops + 1) sm sent
    | none => deliver_assets w user rest (ops + 1)
        (sm.set_last_asset user aid (some ops)) (sent ++ [aid])

/-- Terminal observable outcome of one `process_random_assets` run. -/
inductive Outcome where
  | rejected (shown : String)
  | cancelled
  | exhausted (attempts : ℕ) (shown : String)
  | delivered (ids : List String)
  | failed (e : String) (shown : String)
  | fuelOut
deriving DecidableEq, Repr

/-- Observable result of one run: the outcome, the asset ids delivered by
`send_asset` (empty unless the outcome is `delivered`), and the final
`StateManager`. -/
structure RunResult where
  outcome : Outcome
  filesSent : List String
  sm : StateManager

/-- The no-results message of lines 344-348. -/
def no_results_message (commandStr : String) (attempts : ℕ) : String :=
  "❌ No matching assets found for command: `" ++ commandStr ++ "` after "
    ++ toString attempts ++ " attempts."

/-- The infeasible-minimum message of lines 232-238. -/
def min_size_error_message (minS limit : Int) : String :=
  "Minimum file size (" ++ format_file_size minS
    ++ ") cannot exceed your account\x27s maximum file size limit ("
    ++ format_file_size limit ++ ")"

/-- The `finally: state_manager.end_job(user_id)` step (lines 362-363),
applied on the way out of every branch of the `try`. -/
def finish (user : ℕ) (sm : StateManager) (o : Outcome) (sent : List String) : RunResult :=
  { outcome := o, filesSent := sent, sm := sm.end_job user }

/-- Embedding of `process_random_assets` (lines 218-363).  INIT: resolve
the account limit; a truthy `min_size` above it rejects synchronously
with no job registered; a truthy `max_size` above it is silently clamped;
then `start_job` registers the job and the `try` block runs: the initial
progress edit (operation 0), the search loop, then the no-results edit,
or the progress-message delete followed by the delivery loop.  An
exception raised anywhere inside the `try` lands in the `except` branch,
which shows `format_error_message(str(e), command)`; every branch then
passes through `finish` (the `finally`).  The `except` branch's own edit
and the rejection branch's edit are assumed not to raise (a raise there
would escape `process_random_assets` in the source as well). -/
def process_random_assets (w : DiscoveryWorld) (user : ℕ) (commandStr : String)
    (count : ℕ) (minS maxS : Option Int) (mediaT : Option String)
    (msgId : ℕ) (sm0 : StateManager) : RunResult :=
  let limit := account_limit w
  if min_size_rejected minS limit then
    { outcome := .rejected (format_error_message (min_size_error_message (minS.getD 0) limit) commandStr),
      filesSent := [], sm := sm0 }
  else
    let maxS := if optIntTruthy maxS ∧ maxS.getD 0 > limit then some limit else maxS
    let sm1 := sm0.start_job user msgId
    let maxAtt := w.maxAttempts
    match w.opFail 0 with
    | some e => finish user sm1 (.failed e (format_error_message e commandStr)) []
    | none =>
      let st0 : LoopSt :=
        { valid := [], attempts := 0, callIdx := 0, iter := 0, tq := 0, ops := 1, sm := sm1 }
      match searchLoop w user count maxAtt minS maxS mediaT limit (maxAtt + 1) st0 with
      | .raised e st => finish user st.sm (.failed e (format_error_message e commandStr)) []
      | .cancelled st => finish user st.sm .cancelled []
      | .fuelOut st => finish user st.sm .fuelOut []
      | .finished st =>
        if st.valid.isEmpty then
          match w.opFail st.ops with
          | some e => finish user st.sm (.failed e (format_error_message e commandStr)) []
          | none => finish user st.sm (.exhausted st.attempts (no_results_message commandStr st.attempts)) []
        else
          match w.opFail st.ops with
          | some e => finish user st.sm (.failed e (format_error_message e commandStr)) []
          | none =>
            let r := deliver_assets w user st.valid (st.ops + 1) st.sm []
            finish user r.2.1 (.delivered r.2.2) r.2.2

/-! ## src/cogs/asset_commands.py -/

/-- State held by the `AssetCommands` cog: its own per-user
`last_fetched_asset` map (`defaultdict(lambda: None)`, line 32), distinct
from the `StateManager` maps. -/
structure AcState where
  last_fetched_asset : ℕ → Option String

/-- The `AssetCommands` cog's view of the remote API and transport for
one `fetch_and_send_asset` call: metadata fetch (`none` models a raised
request error), raw-bytes fetch success, the configured
`max_file_size_bytes` ceiling, and whether the Discord send succeeds. -/
structure AcGateway where
  info : String → Option AssetInfo
  dataOk : String → Bool
  maxFileSizeBytes : Int
  sendOk : Bool

/-- Embedding of `fetch_and_send_asset` (src/cogs/asset_commands.py lines
91-133): fetch metadata; refuse an asset above `max_file_size_bytes`;
fetch and send the bytes; only after a successful send record the asset
id in the cog's own `last_fetched_asset` map — the `StateManager` is
never touched by this path.  Returns the `(success, message)` pair and
the updated cog state; error texts are abbreviated models of the
source's messages, whose exact wording no claim depends on. -/
def fetch_and_send_asset (g : AcGateway) (user : ℕ) (aid : String)
    (st : AcState) : (Bool × Option String) × AcState :=
  match g.info aid with
  | none => ((false, some ("Error fetching asset " ++ aid)), st)
  | some i =>
    if i.fileSize > g.maxFileSizeBytes then
      ((false, some ("The requested asset (ID: " ++ aid ++ ") is too large to upload.")), st)
    else if ¬ g.dataOk aid then
      ((false, some ("Error fetching asset " ++ aid)), st)
    else if ¬ g.sendOk then
      ((false, some ("Error fetching asset " ++ aid)), st)
    else
      ((true, none),
        { st with last_fetched_asset :=
            fun v => if v = user then some aid else st.last_fetched_asset v })

/-! ## src/cogs/favorite_commands.py -/

/-- Resolution of the asset id acted on by `favorite last` /
`unfavorite last` (src/cogs/favorite_commands.py lines 21-26 and 47-52):
the `StateManager` record; `none` models the "No asset has been fetched
yet." early return. -/
def favorite_last_asset_id (sm : StateManager) (user : ℕ) : Option String :=
  match sm.get_last_asset user with
  | none => none
  | some st => some st.asset_id

/-! ## Concrete worlds for the scenario claims -/

/-- A benign world: account tier `basic`, default `max_attempts = 50`,
the gateway yields exactly one candidate (id `"a"`, an image of 1,000
bytes) on every call, metadata and data fetches always succeed, no
Discord call fails, the wall-clock test never fires, and a cancel command
runs concurrently so that its flag is set at every cancellation check
after the first — the earliest schedule for a cancel registered after the
first candidate is collected. -/
def wC1 : DiscoveryWorld :=
  { maxAttempts := 50, accountType := "basic",
    randomCall := fun _ _ => (some ["a"], none),
    infoOf := fun _ => some ⟨"image", 1000⟩,
    dataOf := fun _ => true,
    cancelAt := fun k => 1 ≤ k,
    shouldUpd := fun _ => false,
    opFail := fun _ => none }

/-- Like `wC1`, except the gateway alternates one candidate with an empty
batch, so `fetch_assets_batch` returns a short batch and the loop
re-enters its cancellation check with one candidate collected. -/
def wC1b : DiscoveryWorld :=
  { wC1 with randomCall := fun k _ => if k % 2 = 0 then (some ["a"], none) else (some [], none) }

/-- The EXHAUSTED scenario world: `max_attempts = 3`, the gateway always
returns empty batches, no cancel is ever requested. -/
def wC2 : DiscoveryWorld :=
  { wC1 with
    maxAttempts := 3
    randomCall := fun _ _ => (some [], none)
    cancelAt := fun _ => false }

/-- Like `wC1` with no cancel, but Discord operation 0 (the initial
progress edit inside the `try`) raises with text `boom`. -/
def wC4 : DiscoveryWorld :=
  { wC1 with
    cancelAt := fun _ => false
    opFail := fun n => if n = 0 then some "boom" else none }

/-- An `AssetCommands` cog state with no recorded assets. -/
def acEmpty : AcState := { last_fetched_asset := fun _ => none }

/-- A gateway for which a direct fetch of asset `"a"` (5 bytes, within
every limit) succeeds end to end. -/
def gAc : AcGateway :=
  { info := fun _ => some ⟨"image", 5⟩, dataOk := fun _ => true,
    maxFileSizeBytes := 25000000, sendOk := true }

/-- Two distinct metadata snapshots for the cache claim. -/
def infoA : AssetInfo := ⟨"image", 1⟩

/-- Second, different snapshot: the gateway's fresh value after a
mutation. -/
def infoB : AssetInfo := ⟨"image", 2⟩

/-- The attempts counter carried by a per-candidate step result,
whichever way the step ended. -/
def stepAttempts : StepOut → ℕ
  | .raised _ st => st.attempts
  | .brk st => st.attempts
  | .next st => st.attempts

/-- The attempts counter carried by a batch-processing result. -/
def ioAttempts : InnerOut → ℕ
  | .cont st => st.attempts
  | .raised _ st => st.attempts

/-! ## Helper lemmas about the discovery loop -/

/-- Each pass of the per-candidate body charges exactly one attempt
(the `attempts += 1` of line 283 runs before any skip or break). -/
theorem candidate_step_attempts (w : DiscoveryWorld) (count maxAtt : ℕ)
    (minS maxS : Option Int) (mediaT : Option String) (limit : Int)
    (aid : String) (info : Option AssetInfo) (st : LoopSt) :
    stepAttempts (candidate_step w count maxAtt minS maxS mediaT limit aid info st)
      = st.attempts + 1 := by
  unfold candidate_step doOpSt
  by_cases hu : w.shouldUpd st.tq = true <;>
  simp only [hu, if_true, if_false, Bool.false_eq_true] <;>
  repeat' split
  all_goals simp_all [stepAttempts]

/-- Processing a batch never decreases the attempts counter. -/
theorem pc_attempts_le (w : DiscoveryWorld) (count maxAtt : ℕ)
    (minS maxS : Option Int) (mediaT : Option String) (limit : Int)
    (l : List (String × Option AssetInfo)) : ∀ (st : LoopSt),
      st.attempts ≤ ioAttempts (process_candidates w count maxAtt minS maxS mediaT limit l st) := by
  induction l with
  | nil => intro st; simp [process_candidates, ioAttempts]
  | cons a rest ih =>
    intro st
    obtain ⟨aid, info⟩ := a
    have hstep := candidate_step_attempts w count maxAtt minS maxS mediaT limit aid info st
    simp only [process_candidates]
    cases hcs : candidate_step w count maxAtt minS maxS mediaT limit aid info st with
    | raised e st' => rw [hcs] at hstep; simp_all [ioAttempts, stepAttempts]
    | brk st' => rw [hcs] at hstep; simp_all [ioAttempts, stepAttempts]
    | next st' =>
      rw [hcs] at hstep
      have := ih st'
      simp_all [ioAttempts, stepAttempts]
      omega

/-- Processing a nonempty batch charges at least one attempt. -/
theorem pc_cons_attempts (w : DiscoveryWorld) (count maxAtt : ℕ)
    (minS maxS : Option Int) (mediaT : Option String) (limit : Int)
    (a : String × Option AssetInfo) (rest : List (String × Option AssetInfo)) (st : LoopSt) :
    st.attempts + 1
      ≤ ioAttempts (process_candidates w count maxAtt minS maxS mediaT limit (a :: rest) st) := by
  obtain ⟨aid, info⟩ := a
  have hstep := candidate_step_attempts w count maxAtt minS maxS mediaT limit aid info st
  simp only [process_candidates]
  cases hcs : candidate_step w count maxAtt minS maxS mediaT limit aid info st with
  | raised e st' => rw [hcs] at hstep; simp_all [ioAttempts, stepAttempts]
  | brk st' => rw [hcs] at hstep; simp_all [ioAttempts, stepAttempts]
  | next st' =>
    rw [hcs] at hstep
    have := pc_attempts_le w count maxAtt minS maxS mediaT limit rest st'
    simp_all [ioAttempts, stepAttempts]

/-- An iteration tail that returns to the loop head charges at least one
attempt: an error or empty batch charges `max 1 (length assets)`, and a
nonempty batch runs the per-candidate body at least once. -/
theorem iaf_next_attempts (w : DiscoveryWorld) (count maxAtt : ℕ)
    (minS maxS : Option Int) (mediaT : Option String) (limit : Int)
    (assets : List String) (error : Option String) (upd : Bool) (st st' : LoopSt)
    (h : iter_after_fetch w count maxAtt minS maxS mediaT limit assets error upd st = .next st') :
    st.attempts + 1 ≤ st'.attempts := by
  unfold iter_after_fetch doOpSt at h
  dsimp only at h
  split at h
  · split at h
    · split at h
      · simp at h
      · cases h; simp
    · cases h; simp
  · rename_i hcond
    cases hassets : assets with
    | nil => rw [hassets] at hcond; simp at hcond
    | cons a rest =>
      rw [hassets] at h
      simp only [List.map_cons] at h
      split at h
      · rename_i st'' heq
        cases h
        have h2 := pc_cons_attempts w count maxAtt minS maxS mediaT limit
          (a, w.infoOf a) (rest.map (fun x => (x, w.infoOf x))) st
        rw [heq] at h2
        simpa [ioAttempts] using h2
      · simp at h

/-- Every `while` iteration that returns to the loop head increases the
attempts counter by at least one. -/
theorem loopIter_next_attempts (w : DiscoveryWorld) (user count maxAtt : ℕ)
    (minS maxS : Option Int) (mediaT : Option String) (limit : Int)
    (st st' : LoopSt)
    (h : loopIter w user count maxAtt minS maxS mediaT limit st = .next st') :
    st.attempts + 1 ≤ st'.attempts := by
  unfold loopIter doOpSt at h
  dsimp only at h
  split at h <;> split at h
  · split at h <;> simp_all
  · have h5 := iaf_next_attempts w count maxAtt minS maxS mediaT limit _ _ _ _ _ h
    exact h5
  · split at h <;> simp_all
  · have h5 := iaf_next_attempts w count maxAtt minS maxS mediaT limit _ _ _ _ _ h
    exact h5

/-- With fuel at least `maxAtt - attempts + 1`, the search loop never
exhausts its fuel: every iteration strictly increases the attempts
counter, which the loop guard bounds by `maxAtt`. -/
theorem searchLoop_no_fuelOut (w : DiscoveryWorld) (user count maxAtt : ℕ)
    (minS maxS : Option Int) (mediaT : Option String) (limit : Int) :
    ∀ (fuel : ℕ) (st st' : LoopSt), maxAtt ≤ st.attempts + fuel →
      searchLoop w user count maxAtt minS maxS mediaT limit fuel st ≠ .fuelOut st' := by
  intro fuel
  induction fuel with
  | zero =>
    intro st st' hle h
    simp only [searchLoop] at h
    split at h
    · rename_i hg
      omega
    · simp at h
  | succ fuel ih =>
    intro st st' hle h
    simp only [searchLoop] at h
    split at h
    · rename_i hg
      revert h
      cases hit : loopIter w user count maxAtt minS maxS mediaT limit st with
      | next st2 =>
        intro h
        refine ih st2 st' ?_ h
        have := loopIter_next_attempts w user count maxAtt minS maxS mediaT limit st st2 hit
        omega
      | cancelled st2 => intro h; simp at h
      | raised e st2 => intro h; simp at h
    · simp at h

/-- The job entry is gone after `end_job`. -/
theorem end_job_active_none (sm : StateManager) (user : ℕ) :
    (sm.end_job user).active_jobs user = none := by
  simp [StateManager.end_job]

/-- Every branch routed through the `finally` leaves no active job. -/
theorem finish_active_none (user : ℕ) (sm : StateManager) (o : Outcome) (sent : List String) :
    (finish user sm o sent).sm.active_jobs user = none := by
  simp [finish, end_job_active_none]

/-- The search loop never runs out of fuel inside a full run: the run
supplies `maxAttempts + 1` units of fuel starting from zero attempts. -/
theorem process_no_fuelOut (w : DiscoveryWorld) (user : ℕ) (commandStr : String)
    (count : ℕ) (minS maxS : Option Int) (mediaT : Option String)
    (msgId : ℕ) (sm0 : StateManager) :
    (process_random_assets w user commandStr count minS maxS mediaT msgId sm0).outcome
      ≠ .fuelOut := by
  unfold process_random_assets
  dsimp only
  split
  · simp
  · split
    · simp [finish]
    · split
      · simp [finish]
      · simp [finish]
      · rename_i st heq
        exact absurd heq
          (searchLoop_no_fuelOut w user count w.maxAttempts _ _ mediaT _ (w.maxAttempts + 1) _ st
            (by omega))
      · split
        · split <;> simp [finish]
        · split <;> simp [finish]

/-- The delivery loop records each successfully sent asset over the
previous one, so the record ends at the batch's last asset. -/
theorem deliver_assets_last (w : DiscoveryWorld) (user : ℕ)
    (hok : ∀ n, w.opFail n = none) :
    ∀ (assets : List String) (h : assets ≠ []) (ops : ℕ) (sm : StateManager) (sent : List String),
      (((deliver_assets w user assets ops sm sent).2.1).get_last_asset user).map AssetState.asset_id
        = some (assets.getLast h) := by
  intro assets
  induction assets with
  | nil => intro h; exact absurd rfl h
  | cons a rest ih =>
    intro h ops sm sent
    by_cases hr : rest = []
    · subst hr
      simp [deliver_assets, hok, StateManager.get_last_asset, StateManager.set_last_asset]
    · simp only [deliver_assets, hok]
      rw [List.getLast_cons hr]
      exact ih hr (ops + 1) _ _

/-- A successful direct fetch records the asset id in the cog's own map. -/
theorem fetch_and_send_records (g : AcGateway) (user : ℕ) (aid : String) (st : AcState)
    (h : (fetch_and_send_asset g user aid st).1.1 = true) :
    (fetch_and_send_asset g user aid st).2.last_fetched_asset user = some aid := by
  unfold fetch_and_send_asset at h ⊢
  repeat' split at h <;> simp_all
  all_goals rw [if_neg (by omega)]
  all_goals simp

/-! ## Claim theorems -/

set_option maxRecDepth 8000 in
/-- Claim C1, counterexample: with a gateway that yields one candidate
per call indefinitely (world `wC1`) and a cancel whose flag is set at
every cancellation check after the first — the earliest effect a cancel
registered after the first candidate is collected can have — the run does
NOT terminate through the cancellation branch and does not deliver zero
assets: `fetch_assets_batch` keeps calling the gateway until it fills the
whole request, so the loop collects `targetCount = 2` candidates inside
its first iteration, never returns to the cancellation check, and
delivers both assets. -/
theorem claim_C1_counterexample :
    (process_random_assets wC1 1 "cmd" 2 none none none 0 emptySM).outcome
      = .delivered ["a", "a"]
    ∧ (process_random_assets wC1 1 "cmd" 2 none none none 0 emptySM).filesSent = ["a", "a"] := by
  decide

set_option maxRecDepth 8000 in
/-- Claim C1 (corrected): with the one-candidate-per-call gateway the
cancel registered after the first collection is never observed — the run
delivers both assets, and `endJob` still runs (no active job remains).
The cancellation branch (terminate with zero assets delivered and
`endJob` invoked) is reached exactly when a loop-top check follows the
cancel registration with fewer than `targetCount` collected, as in world
`wC1b` where the gateway alternates one candidate with an empty batch. -/
theorem claim_C1 :
    ((process_random_assets wC1 1 "cmd" 2 none none none 0 emptySM).outcome
        = .delivered ["a", "a"]
      ∧ (process_random_assets wC1 1 "cmd" 2 none none none 0 emptySM).sm.active_jobs 1 = none)
    ∧ ((process_random_assets wC1b 1 "cmd" 2 none none none 0 emptySM).outcome = .cancelled
      ∧ (process_random_assets wC1b 1 "cmd" 2 none none none 0 emptySM).filesSent = []
      ∧ (process_random_assets wC1b 1 "cmd" 2 none none none 0 emptySM).sm.active_jobs 1 = none) := by
  refine ⟨⟨?_, ?_⟩, ?_, ?_, ?_⟩ <;> decide

set_option maxRecDepth 8000 in
/-- Claim C2 (confirmed): every `while` iteration that returns to the
loop head strictly increases the attempts counter (also on an error or
empty batch), so the loop's fuel of `maxAttempts + 1` is never exhausted
in any run; and concretely, with a gateway that always returns empty
batches and `maxAttempts = 3` (world `wC2`) the run exits with exactly 3
attempts, zero collected assets, the no-matching-assets (EXHAUSTED)
report, and its job cleaned up. -/
theorem claim_C2 :
    (∀ (w : DiscoveryWorld) (user count maxAtt : ℕ) (minS maxS : Option Int)
        (mediaT : Option String) (limit : Int) (st : LoopSt),
      match loopIter w user count maxAtt minS maxS mediaT limit st with
      | .next st' => st.attempts < st'.attempts
      | _ => True)
    ∧ (∀ (w : DiscoveryWorld) (user : ℕ) (commandStr : String) (count : ℕ)
        (minS maxS : Option Int) (mediaT : Option String) (msgId : ℕ) (sm0 : StateManager),
      (process_random_assets w user commandStr count minS maxS mediaT msgId sm0).outcome
        ≠ .fuelOut)
    ∧ (process_random_assets wC2 1 "c" 1 none none none 0 emptySM).outcome
        = .exhausted 3 (no_results_message "c" 3)
    ∧ (process_random_assets wC2 1 "c" 1 none none none 0 emptySM).filesSent = []
    ∧ (process_random_assets wC2 1 "c" 1 none none none 0 emptySM).sm.active_jobs 1 = none := by
  refine ⟨?_, ?_, by decide, by decide, by decide⟩
  · intro w user count maxAtt minS maxS mediaT limit st
    cases hit : loopIter w user count maxAtt minS maxS mediaT limit st with
    | next st' => exact loopIter_next_attempts w user count maxAtt minS maxS mediaT limit st st' hit
    | cancelled st' => trivial
    | raised e st' => trivial
  · intro w user commandStr count minS maxS mediaT msgId sm0
    exact process_no_fuelOut w user commandStr count minS maxS mediaT msgId sm0

/-- Claim C3 (confirmed): for every run that passes the synchronous
minimum-size check (and therefore registers a job), whatever world the
run meets — arbitrary gateway results, cancels, and raising Discord
calls — the final `StateManager` has no active job for the user: every
terminal branch of the `try` routes through the `finally` that calls
`end_job`. -/
theorem claim_C3 (w : DiscoveryWorld) (user : ℕ) (commandStr : String)
    (count : ℕ) (minS maxS : Option Int) (mediaT : Option String)
    (msgId : ℕ) (sm0 : StateManager)
    (h : min_size_rejected minS (account_limit w) = false) :
    (process_random_assets w user commandStr count minS maxS mediaT msgId sm0).sm.active_jobs user
      = none := by
  unfold process_random_assets
  dsimp only
  rw [h]
  simp only [Bool.false_eq_true, if_false]
  repeat' split
  all_goals apply finish_active_none

/-- Witness for C3 at a concrete world and inputs. -/
theorem claim_C3_witness :
    min_size_rejected none (account_limit wC2) = false
    ∧ (process_random_assets wC2 1 "c" 1 none none none 0 emptySM).sm.active_jobs 1 = none :=
  ⟨by decide, claim_C3 wC2 1 "c" 1 none none none 0 emptySM (by decide)⟩

set_option maxRecDepth 8000 in
/-- Claim C4, counterexample: in world `wC4` the initial progress edit
inside the `try` raises with text `boom`; the run ends in the failed
state and the message it shows the user is `format_error_message`, whose
text contains the raw exception string `boom` — refuting "the message
shown to the end user is generic and never contains the raw exception
string". -/
theorem claim_C4_counterexample :
    (process_random_assets wC4 1 "cmd" 2 none none none 0 emptySM).outcome
      = .failed "boom" (format_error_message "boom" "cmd")
    ∧ strContains (format_error_message "boom" "cmd") "boom" = true := by
  refine ⟨?_, ?_⟩ <;> decide

/-- Claim C4 (corrected): the message shown to the end user for an
unexpected exception is `format_error_message(str(e), command)`, which
begins with `❌ Error: ` followed by the raw exception string itself —
the raw exception text is shown to the user (it is also logged); only
the appended hint is generic.  Every failed outcome of a run shows
exactly that message. -/
theorem claim_C4 :
    (∀ (e commandStr : String),
      format_error_message e commandStr
        = "❌ Error: " ++ e ++ ("\n\n" ++ error_hint (strLower e)
            ++ "\n\nCommand used: `" ++ commandStr ++ "`"))
    ∧ (∀ (w : DiscoveryWorld) (user : ℕ) (commandStr : String) (count : ℕ)
        (minS maxS : Option Int) (mediaT : Option String) (msgId : ℕ)
        (sm0 : StateManager) (e shown : String),
      (process_random_assets w user commandStr count minS maxS mediaT msgId sm0).outcome
          = .failed e shown →
        shown = format_error_message e commandStr) := by
  constructor
  · intro e commandStr
    unfold format_error_message
    apply String.ext
    simp [List.append_assoc]
  · intro w user commandStr count minS maxS mediaT msgId sm0 e shown h
    unfold process_random_assets at h
    dsimp only at h
    repeat' split at h
    all_goals simp [finish] at h
    all_goals (obtain ⟨h1, h2⟩ := h; subst h1; exact h2.symm)

set_option maxRecDepth 8000 in
/-- Witness for C4's run conjunct at a concrete world. -/
theorem claim_C4_witness :
    (process_random_assets wC4 1 "cmd" 2 none none none 0 emptySM).outcome
      = .failed "boom" (format_error_message "boom" "cmd")
    ∧ format_error_message "boom" "cmd" = format_error_message "boom" "cmd" :=
  ⟨by decide,
   claim_C4.2 wC4 1 "cmd" 2 none none none 0 emptySM "boom"
     (format_error_message "boom" "cmd") (by decide)⟩

/-- Claim C5, counterexample: a first `get_asset_info` call stores the
fetched snapshot `infoA` in the cog-level cache; a second invocation
against a gateway that now reports different metadata `infoB` (as after
a favorite/delete) returns the stored copy `infoA`, not the gateway's
fresh value — refuting "not cached beyond a single discovery pass /
always observes fresh metadata". -/
theorem claim_C5_counterexample :
    (get_asset_info (fun _ => some infoB)
        ((get_asset_info (fun _ => some infoA) (fun _ => none) "x").2) "x").1 = some infoA
    ∧ infoA ≠ infoB := by
  refine ⟨?_, ?_⟩ <;> decide

/-- Claim C5 (corrected): `get_asset_info` does cache metadata beyond a
single discovery pass, in the cog-level `asset_cache` (cleaned only by a
300-second TTL task): on a cache hit it returns the stored snapshot
without consulting the gateway, and on a miss it stores the fetched
snapshot for later invocations. -/
theorem claim_C5 :
    (∀ (fetch cache : String → Option AssetInfo) (aid : String) (v : AssetInfo),
      cache ("asset_info_" ++ aid) = some v →
        (get_asset_info fetch cache aid).1 = some v)
    ∧ (∀ (fetch cache : String → Option AssetInfo) (aid : String) (i : AssetInfo),
      cache ("asset_info_" ++ aid) = none → fetch aid = some i →
        (get_asset_info fetch cache aid).2 ("asset_info_" ++ aid) = some i) := by
  constructor
  · intro fetch cache aid v h
    simp [get_asset_info, h]
  · intro fetch cache aid i h1 h2
    simp [get_asset_info, h1, h2]

/-- Witness for C5 at concrete caches and gateways. -/
theorem claim_C5_witness :
    (get_asset_info (fun _ => some infoB)
        (fun k => if k = "asset_info_" ++ "x" then some infoA else none) "x").1 = some infoA
    ∧ (get_asset_info (fun _ => some infoA) (fun _ => none) "x").2 ("asset_info_" ++ "x")
        = some infoA :=
  ⟨claim_C5.1 (fun _ => some infoB)
      (fun k => if k = "asset_info_" ++ "x" then some infoA else none) "x" infoA (by decide),
   claim_C5.2 (fun _ => some infoA) (fun _ => none) "x" infoA (by decide) (by decide)⟩

set_option maxRecDepth 8000 in
/-- Claim C6 (confirmed): a request with a truthy `minBytes` of
30,000,000 against the basic tier's 25,000,000-byte limit is rejected
synchronously with the user-facing infeasible-filter validation message,
delivers nothing, and never registers a job (the `StateManager` is
returned untouched, so no job for the user ever exists). -/
theorem claim_C6 :
    (process_random_assets wC1 1 "cmd" 1 (some 30000000) none none 0 emptySM).outcome
      = .rejected (format_error_message
          (min_size_error_message 30000000 25000000) "cmd")
    ∧ (process_random_assets wC1 1 "cmd" 1 (some 30000000) none none 0 emptySM).filesSent = []
    ∧ (process_random_assets wC1 1 "cmd" 1 (some 30000000) none none 0 emptySM).sm.active_jobs 1
        = none := by
  refine ⟨?_, ?_, ?_⟩ <;> decide

/-- Claim C7, counterexample: a successful direct fetch
(`fetch_and_send_asset`, the `get` path) records the delivered asset only
in the `AssetCommands` cog's own `last_fetched_asset` map; the
`StateManager` record that the favorite/unfavorite `last` commands
consult is untouched (here still empty), so those commands would answer
"No asset has been fetched yet." — refuting "the single per-user
LastAssetRecord consulted by the last commands is overwritten" for the
direct-fetch path. -/
theorem claim_C7_counterexample :
    (fetch_and_send_asset gAc 1 "a" acEmpty).1.1 = true
    ∧ (fetch_and_send_asset gAc 1 "a" acEmpty).2.last_fetched_asset 1 = some "a"
    ∧ favorite_last_asset_id emptySM 1 = none := by
  refine ⟨?_, ?_, ?_⟩ <;> decide

/-- Claim C7 (corrected): two separate last-asset records exist.  The
discovery delivery loop overwrites the `StateManager` record (consulted
by favorite/unfavorite `last`) on every successful send, last write
winning, so a fully delivered batch leaves its final asset recorded; a
successful direct fetch records the asset id in the `AssetCommands`
cog's own `last_fetched_asset` map (consulted by that cog's
favorite/delete `last`) instead. -/
theorem claim_C7 :
    (∀ (w : DiscoveryWorld) (user : ℕ), (∀ n, w.opFail n = none) →
      ∀ (assets : List String) (h : assets ≠ []) (ops : ℕ) (sm : StateManager)
        (sent : List String),
        (((deliver_assets w user assets ops sm sent).2.1).get_last_asset user).map
            AssetState.asset_id
          = some (assets.getLast h))
    ∧ (∀ (g : AcGateway) (user : ℕ) (aid : String) (st : AcState),
      (fetch_and_send_asset g user aid st).1.1 = true →
        (fetch_and_send_asset g user aid st).2.last_fetched_asset user = some aid) :=
  ⟨deliver_assets_last, fetch_and_send_records⟩

/-- Witness for C7: a two-asset delivery records the second asset as
last, and a successful direct fetch records into the cog map. -/
theorem claim_C7_witness :
    (((deliver_assets wC1 1 ["a", "b"] 0 emptySM []).2.1).get_last_asset 1).map
        AssetState.asset_id = some "b"
    ∧ (fetch_and_send_asset gAc 1 "a" acEmpty).1.1 = true
    ∧ (fetch_and_send_asset gAc 1 "a" acEmpty).2.last_fetched_asset 1 = some "a" :=
  ⟨claim_C7.1 wC1 1 (fun _ => rfl) ["a", "b"] (by decide) 0 emptySM [],
   by decide,
   claim_C7.2 gAc 1 "a" acEmpty (by decide)⟩

/-- Claim C8 (confirmed): `parse_size_string` recovers each tested byte
count from its `format_file_size` rendering within the two-decimal
rounding tolerance — exactly for the three exactly-renderable values,
and to 1,000 (within the 10-byte KB tolerance of the claim, as
`|1000 - 999| = 1 ≤ 10`) for 999. -/
theorem claim_C8 :
    parse_size_string (format_file_size 999) = some 1000
    ∧ ((1000 : Int) - 999).natAbs ≤ 10
    ∧ parse_size_string (format_file_size 1000000) = some 1000000
    ∧ ((1000000 : Int) - 1000000).natAbs ≤ 10000
    ∧ parse_size_string (format_file_size 2500000) = some 2500000
    ∧ ((2500000 : Int) - 2500000).natAbs ≤ 10000
    ∧ parse_size_string (format_file_size 500000) = some 500000
    ∧ ((500000 : Int) - 500000).natAbs ≤ 10 := by
  decide

/-- Claim C9 (confirmed): `should_cancel` is `false` whenever no job is
registered (it never errors on an absent user); after `end_job` the
user's flag reads `false`; and a fresh `start_job` installs a job whose
flag is `false`, so a newly started job is never born cancelled even if
a cancel had been set before. -/
theorem claim_C9 :
    (∀ (sm : StateManager) (user : ℕ), sm.active_jobs user = none →
      sm.should_cancel user = false)
    ∧ (∀ (sm : StateManager) (user : ℕ), (sm.end_job user).should_cancel user = false)
    ∧ (∀ (sm : StateManager) (user mid : ℕ),
      (sm.start_job user mid).should_cancel user = false) := by
  refine ⟨?_, ?_, ?_⟩
  · intro sm user h
    simp [StateManager.should_cancel, h]
  · intro sm user
    simp [StateManager.should_cancel, StateManager.end_job]
  · intro sm user mid
    simp [StateManager.should_cancel, StateManager.start_job]

/-- Witness for C9: a job that was started and cancelled loses its flag
through `end_job` and through a fresh `start_job`. -/
theorem claim_C9_witness :
    emptySM.active_jobs 1 = none
    ∧ emptySM.should_cancel 1 = false
    ∧ (((emptySM.start_job 1 0).cancel_job 1).2.end_job 1).should_cancel 1 = false
    ∧ (((emptySM.start_job 1 0).cancel_job 1).2.start_job 1 2).should_cancel 1 = false :=
  ⟨rfl, claim_C9.1 emptySM 1 rfl,
   claim_C9.2.1 ((emptySM.start_job 1 0).cancel_job 1).2 1,
   claim_C9.2.2 ((emptySM.start_job 1 0).cancel_job 1).2 1 2⟩

/-- Claim C10 (confirmed): `parse_size_string` accepts a negative
magnitude — `"-2mb"` parses to `-2,000,000` instead of being reported
invalid — and the `min_size` preference update stores that negative
value, since its only range check is that the parsed value not exceed
the account's maximum file size limit. -/
theorem claim_C10 :
    parse_size_string "-2mb" = some (-2000000)
    ∧ prefs_set_min_size "-2mb" 25000000 = .stored (-2000000) := by
  decide
